import Mathlib

/-!
Shallow embedding of `src/app.py` (Sig55_RangeAnalysis): ingest of
`$PNORI` / `$PNORS` / `$PNORC` sentences, depth reconstruction, the
sample-table builder, the profile-index assignment, and the figure /
range-filter layer (`make_fig`, `update_figs`).

Modelling conventions:
* Python `float` values coming from the data file are modelled as `ℚ`;
  `np.nan` (the "unknown" marker) is modelled as `none : Option ℚ`, and
  NaN-propagating arithmetic by `addN` / `mulN` / `subN`.
* A Python exception (ValueError from `float`/`int`, IndexError from a
  field access) is modelled as `Except.error ()`; normal execution as
  `Except.ok`.
* `pandas.DataFrame` stages are modelled stage by stage on lists:
  `dropna(subset=["depth"])` as a filter, `sort_values(["profile","depth"])`
  as a stable comparison sort by the lexicographic (profile, depth) key,
  `mean(axis=1, skipna=True)` as `meanSkipna`, `sorted(df.profile.unique())`
  as `perfisOf`, and the `idx` column as `List.indexOf` into `perfisOf`.
-/

namespace Sig55

/-! ### Numeric field parsing (`f2` / `i2` in app.py) -/

/-- Value of a list of decimal digit characters, most significant first. -/
def digitsVal (cs : List Char) : ℕ :=
  cs.foldl (fun a c => a * 10 + (c.toNat - 48)) 0

/-- Unsigned part of Python's `float` on the decimal fragment actually used by
the data format: digits with an optional fractional part (`"12"`, `"12."`,
`".5"`, `"12.30"`).  A string that is not of this shape yields `none`
(Python raises `ValueError`).  Exponents, `inf`/`nan` and underscores are not
exercised by this log format and are not modelled. -/
def pyFloatCore (cs : List Char) : Option ℚ :=
  match cs.span Char.isDigit with
  | (ip, rest) =>
    match rest with
    | [] => if ip.isEmpty then none else some (digitsVal ip)
    | '.' :: fp =>
        if fp.all Char.isDigit && (!ip.isEmpty || !fp.isEmpty) then
          some ((digitsVal ip : ℚ) + (digitsVal fp : ℚ) / (10 : ℚ) ^ fp.length)
        else none
    | _ => none

/-- Python `float(s)`: optional sign then `pyFloatCore`. -/
def pyFloat (s : String) : Option ℚ :=
  match s.toList with
  | '-' :: cs => (pyFloatCore cs).map Neg.neg
  | '+' :: cs => pyFloatCore cs
  | cs => pyFloatCore cs

/-- Unsigned part of Python `int(s)`: a nonempty all-digit string. -/
def pyIntCore (cs : List Char) : Option ℤ :=
  if cs.isEmpty then none
  else if cs.all Char.isDigit then some (digitsVal cs : ℤ) else none

/-- Python `int(s)`: optional sign then `pyIntCore`. -/
def pyInt (s : String) : Option ℤ :=
  match s.toList with
  | '-' :: cs => (pyIntCore cs).map Neg.neg
  | '+' :: cs => pyIntCore cs
  | cs => pyIntCore cs

/-- `f2(x)` from app.py: `float(x) if x not in ("", None) else np.nan`.
An empty field becomes the unknown marker (`.ok none`); a non-empty field is
given to `float`, whose `ValueError` is the `.error` case. -/
def f2 (x : String) : Except Unit (Option ℚ) :=
  if x = "" then .ok none
  else
    match pyFloat x with
    | some v => .ok (some v)
    | none => .error ()

/-- `i2(x)` from app.py: `int(x) if x not in ("", None) else np.nan`.
The integer is carried as a rational, as NumPy promotes it to float the
moment it meets `np.nan`. -/
def i2 (x : String) : Except Unit (Option ℚ) :=
  if x = "" then .ok none
  else
    match pyInt x with
    | some v => .ok (some (v : ℚ))
    | none => .error ()

/-! ### Line splitting -/

/-- Python `str.split(sep)` for a one-character separator: keeps empty
pieces, and the empty string splits to `[""]`. -/
def splitOnChar (sep : Char) : List Char → List (List Char)
  | [] => [[]]
  | c :: cs =>
    match splitOnChar sep cs with
    | [] => [[]]
    | h :: t => if c = sep then [] :: h :: t else (c :: h) :: t

/-- `line.split("*")[0]`: the part of the line before the checksum marker. -/
def beforeChecksum (line : String) : List Char :=
  (splitOnChar '*' line.toList).headD []

/-- `line.split("*")[0].split(",")`, the positional field list of a line. -/
def splitFields (line : String) : List String :=
  (splitOnChar ',' (beforeChecksum line)).map List.asString

/-- Python list indexing `l[i]` for `i ≥ 0`: `IndexError` is the `.error`
case. -/
def getField (l : List String) (i : ℕ) : Except Unit String :=
  match l.get? i with
  | some s => .ok s
  | none => .error ()

/-- Python `line.startswith(pre)`. -/
def pyStartswith (line pre : String) : Bool :=
  pre.toList.isPrefixOf line.toList

/-! ### NaN-propagating arithmetic -/

/-- Addition where NaN (`none`) absorbs. -/
def addN : Option ℚ → Option ℚ → Option ℚ
  | some a, some b => some (a + b)
  | _, _ => none

/-- Multiplication where NaN (`none`) absorbs. -/
def mulN : Option ℚ → Option ℚ → Option ℚ
  | some a, some b => some (a * b)
  | _, _ => none

/-- Subtraction where NaN (`none`) absorbs. -/
def subN : Option ℚ → Option ℚ → Option ℚ
  | some a, some b => some (a - b)
  | _, _ => none

/-! ### Ingest loop (section 1 of app.py) -/

/-- One `recs` entry appended by the `$PNORC` branch. -/
structure Row where
  profile : Option String
  depth : Option ℚ
  corr1 : Option ℚ
  corr2 : Option ℚ
  corr3 : Option ℚ
  amp1 : Option ℚ
  amp2 : Option ℚ
  amp3 : Option ℚ
deriving DecidableEq, Repr

/-- The mutable ingest state of the `for line in f` loop:
`recs, blanking, cell_size, press_m, profile = [], np.nan, np.nan, np.nan, None`. -/
structure IngestState where
  recs : List Row
  blanking : Option ℚ
  cell_size : Option ℚ
  press_m : Option ℚ
  profile : Option String
deriving DecidableEq, Repr

/-- Initial ingest state. -/
def initState : IngestState := ⟨[], none, none, none, none⟩

/-- One iteration of the ingest loop over `line`. -/
def processLine (st : IngestState) (line : String) : Except Unit IngestState :=
  if pyStartswith line "$PNORI" then do
    let b := splitFields line
    let blanking ← f2 (← getField b 5)
    let cell_size ← f2 (← getField b 6)
    return { st with blanking := blanking, cell_size := cell_size }
  else if pyStartswith line "$PNORS" then do
    let s := splitFields line
    let profile ← getField s 2
    let press_m ← f2 (← getField s 10)
    return { st with profile := some profile, press_m := press_m }
  else if pyStartswith line "$PNORC" then do
    let c := splitFields line
    let cell ← i2 (← getField c 3)
    if cell = none ∨ st.cell_size = none then
      return st
    else
      let corr1 ← i2 (← getField c 15)
      let corr2 ← i2 (← getField c 16)
      let corr3 ← i2 (← getField c 17)
      let amp1 ← f2 (← getField c 11)
      let amp2 ← f2 (← getField c 12)
      let amp3 ← f2 (← getField c 13)
      let depth := addN (addN st.press_m st.blanking)
        (mulN st.cell_size (subN cell (some (1 / 2))))
      return { st with recs := st.recs ++
        [⟨st.profile, depth, corr1, corr2, corr3, amp1, amp2, amp3⟩] }
  else
    return st

/-- The whole ingest pass over the input lines. -/
def ingest (lines : List String) : Except Unit IngestState :=
  lines.foldlM processLine initState

/-! ### Sample table builder (DataFrame stages of app.py) -/

/-- Comparison used for the `profile` sort key.  All rows that survive
`dropna` carry a `some` profile (a pressure is only ever set together with a
profile id), so the placement of `none` is immaterial; it is put first. -/
def optStrLE (a b : Option String) : Bool :=
  match a, b with
  | none, _ => true
  | some _, none => false
  | some x, some y => decide (x ≤ y)

/-- Comparison used for the `depth` sort key; all rows that survive `dropna`
have a `some` depth, so the placement of `none` is immaterial. -/
def optQLE (a b : Option ℚ) : Bool :=
  match a, b with
  | none, _ => true
  | some _, none => false
  | some x, some y => decide (x ≤ y)

/-- Lexicographic (profile, depth) key order of
`sort_values(["profile","depth"])`. -/
def rowLE (a b : Row) : Bool :=
  if a.profile = b.profile then optQLE a.depth b.depth
  else optStrLE a.profile b.profile

/-- `dropna(subset=["depth"])` followed by `sort_values(["profile","depth"])`.
`np.lexsort` is a comparison sort by the lexicographic key; the claims are
insensitive to tie order, so insertion sort models it. -/
def keptSorted (recs : List Row) : List Row :=
  (recs.filter (fun r => r.depth.isSome)).insertionSort (fun a b => rowLE a b = true)

/-- Accumulator pass for `uniqueFirst`: keeps the first occurrence of each
element not already seen. -/
def uniqueFirstAux (seen : List (Option String)) :
    List (Option String) → List (Option String)
  | [] => []
  | x :: xs =>
    if x ∈ seen then uniqueFirstAux seen xs
    else x :: uniqueFirstAux (x :: seen) xs

/-- First-occurrence distinct elements, as `pandas.Series.unique`. -/
def uniqueFirst (l : List (Option String)) : List (Option String) :=
  uniqueFirstAux [] l

/-- `perfis = sorted(df.profile.unique())`: the distinct profile ids in
ascending order. -/
def perfisOf (recs : List Row) : List (Option String) :=
  (uniqueFirst ((keptSorted recs).map (fun r => r.profile))).insertionSort
    (fun a b => optStrLE a b = true)

/-- `mean(axis=1, skipna=True)` over one row of a three-column slice: the
arithmetic mean of the non-NaN entries, NaN when all are NaN. -/
def meanSkipna (xs : List (Option ℚ)) : Option ℚ :=
  let vs := xs.filterMap id
  if vs.isEmpty then none else some (vs.sum / (vs.length : ℚ))

/-- One row of the finished DataFrame `df`, including the derived
`corr_mean`, `amp_mean` and `idx` columns. -/
structure Sample where
  profile : Option String
  depth : Option ℚ
  corr1 : Option ℚ
  corr2 : Option ℚ
  corr3 : Option ℚ
  amp1 : Option ℚ
  amp2 : Option ℚ
  amp3 : Option ℚ
  corr_mean : Option ℚ
  amp_mean : Option ℚ
  idx : ℕ
deriving DecidableEq, Repr

/-- Position of the first occurrence of `p`, the value
`{p:i for i,p in enumerate(perfis)}[p]` of the Python index dictionary
(every looked-up profile occurs in `perfis`, which is duplicate-free). -/
def posOf (p : Option String) : List (Option String) → ℕ
  | [] => 0
  | q :: qs => if q = p then 0 else posOf p qs + 1

/-- Finishing one row: the derived mean columns and
`df["idx"] = df.profile.map({p:i for i,p in enumerate(perfis)})`. -/
def finishRow (perfis : List (Option String)) (r : Row) : Sample :=
  { profile := r.profile
    depth := r.depth
    corr1 := r.corr1
    corr2 := r.corr2
    corr3 := r.corr3
    amp1 := r.amp1
    amp2 := r.amp2
    amp3 := r.amp3
    corr_mean := meanSkipna [r.corr1, r.corr2, r.corr3]
    amp_mean := meanSkipna [r.amp1, r.amp2, r.amp3]
    idx := posOf r.profile perfis }

/-- The finished sample table `df` built from the raw `recs`. -/
def buildTable (recs : List Row) : List Sample :=
  (keptSorted recs).map (finishRow (perfisOf recs))

/-! ### Figure layer (`make_fig`, `update_figs`) -/

/-- The metric column handed to `make_fig` (the `col` string argument). -/
inductive Metric
  | corr1 | corr2 | corr3 | corr_mean | amp1 | amp2 | amp3 | amp_mean
deriving DecidableEq, Repr

/-- Column lookup `dsub[col]`. -/
def Metric.get : Metric → Sample → Option ℚ
  | .corr1, s => s.corr1
  | .corr2, s => s.corr2
  | .corr3, s => s.corr3
  | .corr_mean, s => s.corr_mean
  | .amp1, s => s.amp1
  | .amp2, s => s.amp2
  | .amp3, s => s.amp3
  | .amp_mean, s => s.amp_mean

/-- One `go.Scatter` trace: the legend name and the zipped
`(x = metric value, y = depth)` column pair. -/
structure Trace where
  name : Option String
  points : List (Option ℚ × Option ℚ)
deriving DecidableEq, Repr

/-- The points the plotting layer actually draws: a NaN coordinate produces
no marker/vertex, so only pairs with both coordinates defined render
(spec §4.5: samples whose metric value is unknown are omitted from the
series). -/
def Trace.renderedPoints (t : Trace) : List (ℚ × ℚ) :=
  t.points.filterMap (fun q =>
    match q.1, q.2 with
    | some x, some y => some (x, y)
    | _, _ => none)

/-- One chart specification as assembled by `make_fig`; cosmetic layout
constants (margins, hover template, legend title, annotation text) carry no
data and are not modelled. -/
structure Fig where
  title : String
  xaxis_title : String
  yaxis_reversed : Bool
  vline : Option ℚ
  traces : List Trace
deriving DecidableEq, Repr

/-- Group keys of `sub.groupby("profile")`: distinct profiles in ascending
key order (pandas `groupby` sorts its keys). -/
def groupKeys (sub : List Sample) : List (Option String) :=
  (uniqueFirst (sub.map (fun r => r.profile))).insertionSort
    (fun a b => optStrLE a b = true)

/-- `make_fig(sub, col, title, is_corr)` from app.py. -/
def make_fig (sub : List Sample) (col : Metric) (title : String)
    (is_corr : Bool) : Fig :=
  { title := title
    xaxis_title := if is_corr then "Correlation (counts)" else "Amplitude (counts)"
    yaxis_reversed := true
    vline := if is_corr then some 50 else none
    traces := (groupKeys sub).map (fun p =>
      { name := p
        points := (sub.filter (fun r => r.profile = p)).map
          (fun r => (col.get r, r.depth)) }) }

/-- No-break space U+00A0, which app.py's chart titles place before each
beam number. -/
def nbsp : String := ⟨[Char.ofNat 160]⟩

/-- Non-breaking hyphen U+2011, which app.py's mean-chart titles use inside
"1‑3". -/
def nbhyphen : String := ⟨[Char.ofNat 0x2011]⟩

/-- Title of chart 1, byte-for-byte as in app.py (the visible dash is
U+2013 EN DASH, the space before the beam number is U+00A0). -/
def titleCorrBeam (n : String) : String := "Correlation – Beam" ++ nbsp ++ n

/-- Title of charts 5-7, byte-for-byte as in app.py. -/
def titleAmpBeam (n : String) : String := "Amplitude – Beam" ++ nbsp ++ n

/-- Title of chart 4, byte-for-byte as in app.py. -/
def titleCorrMean : String :=
  "Correlation MEAN (Beams" ++ nbsp ++ "1" ++ nbhyphen ++ "3)"

/-- Title of chart 8, byte-for-byte as in app.py. -/
def titleAmpMean : String :=
  "Amplitude MEAN (Beams" ++ nbsp ++ "1" ++ nbhyphen ++ "3)"

/-- The eight fixed chart titles of `update_figs`, in return order. -/
def figTitles : List String :=
  [ titleCorrBeam "1", titleCorrBeam "2", titleCorrBeam "3", titleCorrMean
  , titleAmpBeam "1", titleAmpBeam "2", titleAmpBeam "3", titleAmpMean ]

/-- The slice `df[(df.idx>=s)&(df.idx<=e)]` taken by the callback. -/
def subSelect (tbl : List Sample) (s e : ℕ) : List Sample :=
  tbl.filter (fun r => decide (s ≤ r.idx ∧ r.idx ≤ e))

/-- The `update_figs` callback body, parametrised by the (process-global)
built table. -/
def update_figs (tbl : List Sample) (s e : ℕ) : List Fig :=
  let sub := subSelect tbl s e
  [ make_fig sub .corr1 (titleCorrBeam "1") true
  , make_fig sub .corr2 (titleCorrBeam "2") true
  , make_fig sub .corr3 (titleCorrBeam "3") true
  , make_fig sub .corr_mean titleCorrMean true
  , make_fig sub .amp1 (titleAmpBeam "1") false
  , make_fig sub .amp2 (titleAmpBeam "2") false
  , make_fig sub .amp3 (titleAmpBeam "3") false
  , make_fig sub .amp_mean titleAmpMean false ]

/-- The `allowCross=False` property of the `dcc.RangeSlider` in the layout:
the control surface itself forbids crossed handles. -/
def sliderAllowCross : Bool := false

/-- The three example sentences of spec §8, with filler fields chosen so that
the positionally addressed values are exactly the spec's:
blanking `b[5]=0.50`, cell size `b[6]=1.00`; profile `s[2]=093015`, pressure
`s[10]=12.30`; cell `c[3]=2`, amplitudes `c[11..13]=80,75,70`, correlations
`c[15..17]=60,55,50`. -/
def exampleLines : List String :=
  [ "$PNORI,4,123456,3,30,0.50,1.00,0*hh"
  , "$PNORS,230394,093015,00,B4,12.0,1522.3,123.4,0.02,45.6,12.30*hh"
  , "$PNORC,230394,093015,2,4.1,10.5,0.01,135.0,78.9,0.32,2.1,80,75,70,0,60,55,50*hh" ]

/-- The raw rows the example input produces. -/
def exampleRecs : List Row :=
  ((ingest exampleLines).toOption.getD initState).recs

/-- The table the example input produces. -/
def exampleTable : List Sample := buildTable exampleRecs

/-- The one sample spec §8 requires for the example input. -/
def exampleSample : Sample :=
  { profile := some "093015", depth := some (143/10)
    corr1 := some 60, corr2 := some 55, corr3 := some 50
    amp1 := some 80, amp2 := some 75, amp3 := some 70
    corr_mean := some 55, amp_mean := some 75, idx := 0 }

/-- The example cell-measurement sentence on its own. -/
def pnorcExample : String :=
  "$PNORC,230394,093015,2,4.1,10.5,0.01,135.0,78.9,0.32,2.1,80,75,70,0,60,55,50*hh"

/-- A row with an unknown depth, as produced by a measurement line seen
while pressure is still unknown. -/
def rowU : Row := ⟨some "x", none, none, none, none, none, none, none⟩

/-- An ingest state holding `rowU`, with pressure still unknown. -/
def stU : IngestState := ⟨[rowU], none, none, none, none⟩

/-- Two one-row profiles used to exercise the range filter. -/
def cexRows : List Row :=
  [ ⟨some "093015", some 10, some 60, some 60, some 60, some 70, some 70, some 70⟩
  , ⟨some "101500", some 11, some 61, some 61, some 61, some 71, some 71, some 71⟩ ]

/-! ### Helper lemmas -/

theorem except_bind_ok {α β : Type} {e : Except Unit α} {f : α → Except Unit β}
    {b : β} (h : e >>= f = .ok b) : ∃ a, e = .ok a ∧ f a = .ok b := by
  cases e with
  | error u => exact absurd h (by simp [Bind.bind, Except.bind])
  | ok a => exact ⟨a, rfl, by simpa [Bind.bind, Except.bind] using h⟩

theorem except_ok_bind {α β : Type} (a : α) (f : α → Except Unit β) :
    (Except.ok a >>= f) = f a := rfl

/-- Two distinct prefixes of equal length cannot both start the same line. -/
theorem startswith_unique {line p q : String}
    (hp : pyStartswith line p = true) (hlen : p.toList.length = q.toList.length)
    (hne : p.toList ≠ q.toList) : pyStartswith line q = false := by
  by_contra hq
  rw [Bool.not_eq_false] at hq
  rw [pyStartswith, List.isPrefixOf_iff_prefix] at hp hq
  exact hne ((List.prefix_of_prefix_length_le hp hq hlen.le).eq_of_length hlen)

theorem optStrLE_refl (a : Option String) : optStrLE a a = true := by
  cases a <;> simp [optStrLE]

theorem optStrLE_total (a b : Option String) :
    optStrLE a b = true ∨ optStrLE b a = true := by
  cases a <;> cases b <;> simp [optStrLE]
  exact le_total _ _

theorem optStrLE_trans {a b c : Option String} (h1 : optStrLE a b = true)
    (h2 : optStrLE b c = true) : optStrLE a c = true := by
  cases a <;> cases b <;> cases c <;> simp_all [optStrLE]
  exact le_trans h1 h2

theorem optStrLE_antisymm {a b : Option String} (h1 : optStrLE a b = true)
    (h2 : optStrLE b a = true) : a = b := by
  cases a <;> cases b
  · rfl
  · simp only [optStrLE] at h2
    exact absurd h2 (by simp)
  · simp only [optStrLE] at h1
    exact absurd h1 (by simp)
  · simp only [optStrLE, decide_eq_true_eq] at h1 h2
    exact congrArg some (le_antisymm h1 h2)

theorem optQLE_total (a b : Option ℚ) : optQLE a b = true ∨ optQLE b a = true := by
  cases a <;> cases b <;> simp [optQLE]
  exact le_total _ _

theorem optQLE_trans {a b c : Option ℚ} (h1 : optQLE a b = true)
    (h2 : optQLE b c = true) : optQLE a c = true := by
  cases a <;> cases b <;> cases c <;> simp_all [optQLE]
  exact le_trans h1 h2

theorem rowLE_total (a b : Row) : rowLE a b = true ∨ rowLE b a = true := by
  unfold rowLE
  by_cases h : a.profile = b.profile
  · simp [h, optQLE_total]
  · rw [if_neg h, if_neg (Ne.symm h)]
    exact optStrLE_total _ _

theorem rowLE_trans {a b c : Row} (h1 : rowLE a b = true)
    (h2 : rowLE b c = true) : rowLE a c = true := by
  unfold rowLE at *
  by_cases hab : a.profile = b.profile <;> by_cases hbc : b.profile = c.profile
  · rw [if_pos hab] at h1
    rw [if_pos hbc] at h2
    rw [if_pos (hab.trans hbc)]
    exact optQLE_trans h1 h2
  · rw [if_pos hab] at h1
    rw [if_neg hbc] at h2
    rw [if_neg (fun h => hbc (hab ▸ h)), hab]
    exact h2
  · rw [if_neg hab] at h1
    rw [if_pos hbc] at h2
    rw [if_neg (fun h => hab (h.trans hbc.symm)), ← hbc]
    exact h1
  · rw [if_neg hab] at h1
    rw [if_neg hbc] at h2
    by_cases hac : a.profile = c.profile
    · exact absurd (optStrLE_antisymm h1 (hac ▸ h2)) hab
    · rw [if_neg hac]
      exact optStrLE_trans h1 h2

instance : IsTotal Row (fun a b => rowLE a b = true) := ⟨rowLE_total⟩

instance : IsTrans Row (fun a b => rowLE a b = true) := ⟨fun _ _ _ => rowLE_trans⟩

instance : IsTotal (Option String) (fun a b => optStrLE a b = true) :=
  ⟨optStrLE_total⟩

instance : IsTrans (Option String) (fun a b => optStrLE a b = true) :=
  ⟨fun _ _ _ => optStrLE_trans⟩

theorem mem_uniqueFirstAux {a : Option String} {seen l} :
    a ∈ uniqueFirstAux seen l ↔ a ∈ l ∧ a ∉ seen := by
  induction l generalizing seen with
  | nil => simp [uniqueFirstAux]
  | cons x xs ih =>
    by_cases hx : x ∈ seen
    · rw [uniqueFirstAux, if_pos hx, ih]
      constructor
      · rintro ⟨h1, h2⟩
        exact ⟨List.mem_cons_of_mem _ h1, h2⟩
      · rintro ⟨h1, h2⟩
        rcases List.mem_cons.1 h1 with rfl | h1
        · exact absurd hx h2
        · exact ⟨h1, h2⟩
    · rw [uniqueFirstAux, if_neg hx]
      constructor
      · intro h
        rcases List.mem_cons.1 h with rfl | h
        · exact ⟨List.mem_cons_self _ _, hx⟩
        · obtain ⟨h1, h2⟩ := ih.1 h
          exact ⟨List.mem_cons_of_mem _ h1,
            fun hs => h2 (List.mem_cons_of_mem _ hs)⟩
      · rintro ⟨h1, h2⟩
        rcases List.mem_cons.1 h1 with rfl | h1
        · exact List.mem_cons_self _ _
        · by_cases hax : a = x
          · exact hax ▸ List.mem_cons_self _ _
          · refine List.mem_cons_of_mem _ (ih.2 ⟨h1, fun hs => ?_⟩)
            rcases List.mem_cons.1 hs with h | h
            · exact hax h
            · exact h2 h

theorem nodup_uniqueFirstAux {seen l} : (uniqueFirstAux seen l).Nodup := by
  induction l generalizing seen with
  | nil => simp [uniqueFirstAux]
  | cons x xs ih =>
    by_cases hx : x ∈ seen
    · rw [uniqueFirstAux, if_pos hx]
      exact ih
    · rw [uniqueFirstAux, if_neg hx]
      refine List.nodup_cons.2 ⟨fun hmem => ?_, ih⟩
      exact (mem_uniqueFirstAux.1 hmem).2 (List.mem_cons_self x seen)

theorem mem_uniqueFirst {a : Option String} {l} : a ∈ uniqueFirst l ↔ a ∈ l := by
  rw [uniqueFirst, mem_uniqueFirstAux]
  simp

theorem nodup_uniqueFirst {l} : (uniqueFirst l).Nodup := nodup_uniqueFirstAux

theorem mem_keptSorted {recs : List Row} {r : Row} :
    r ∈ keptSorted recs ↔ r ∈ recs ∧ r.depth.isSome = true := by
  rw [keptSorted, List.mem_insertionSort, List.mem_filter]

theorem keptSorted_sorted (recs : List Row) :
    List.Sorted (fun a b => rowLE a b = true) (keptSorted recs) :=
  List.sorted_insertionSort _ _

theorem perfisOf_sorted (recs : List Row) :
    List.Sorted (fun a b => optStrLE a b = true) (perfisOf recs) :=
  List.sorted_insertionSort _ _

theorem perfisOf_nodup (recs : List Row) : (perfisOf recs).Nodup :=
  ((List.perm_insertionSort _ _).nodup_iff).2 nodup_uniqueFirst

theorem mem_perfisOf {recs : List Row} {p : Option String} :
    p ∈ perfisOf recs ↔ ∃ r ∈ keptSorted recs, r.profile = p := by
  rw [perfisOf, List.mem_insertionSort, mem_uniqueFirst]
  constructor
  · intro h
    obtain ⟨r, hr, hp⟩ := List.mem_map.1 h
    exact ⟨r, hr, hp⟩
  · rintro ⟨r, hr, hp⟩
    exact List.mem_map.2 ⟨r, hr, hp⟩

theorem mem_buildTable_iff {recs : List Row} {s : Sample} :
    s ∈ buildTable recs ↔
      ∃ r ∈ keptSorted recs, s = finishRow (perfisOf recs) r := by
  rw [buildTable, List.mem_map]
  constructor
  · rintro ⟨r, hr, rfl⟩
    exact ⟨r, hr, rfl⟩
  · rintro ⟨r, hr, rfl⟩
    exact ⟨r, hr, rfl⟩

theorem idx_eq_posOf {recs : List Row} {s : Sample} (hs : s ∈ buildTable recs) :
    s.idx = posOf s.profile (perfisOf recs) := by
  obtain ⟨r, _, rfl⟩ := mem_buildTable_iff.1 hs
  rfl

theorem posOf_lt_length {p : Option String} {l : List (Option String)}
    (h : p ∈ l) : posOf p l < l.length := by
  induction l with
  | nil => cases h
  | cons q qs ih =>
    rw [posOf]
    by_cases hq : q = p
    · rw [if_pos hq]
      simp
    · rw [if_neg hq]
      have hmem : p ∈ qs := by
        cases List.mem_cons.1 h with
        | inl he => exact absurd he.symm hq
        | inr h' => exact h'
      simpa [Nat.succ_lt_succ_iff] using ih hmem

theorem posOf_get {l : List (Option String)} (hl : l.Nodup) :
    ∀ i (hi : i < l.length), posOf (l.get ⟨i, hi⟩) l = i := by
  induction l with
  | nil =>
    intro i hi
    cases hi
  | cons q qs ih =>
    intro i hi
    cases i with
    | zero =>
      rw [posOf]
      simp
    | succ j =>
      have hj : j < qs.length := Nat.lt_of_succ_lt_succ hi
      have hget : (q :: qs).get ⟨j + 1, hi⟩ = qs.get ⟨j, hj⟩ := rfl
      rw [hget, posOf]
      have hq : ¬q = qs.get ⟨j, hj⟩ := by
        intro he
        exact (List.nodup_cons.1 hl).1 (he ▸ List.get_mem qs j hj)
      rw [if_neg hq, ih (List.nodup_cons.1 hl).2 j hj]

theorem pnorc_not_pnori {line : String} (h : pyStartswith line "$PNORC" = true) :
    pyStartswith line "$PNORI" = false :=
  startswith_unique h (by decide) (by decide)

theorem pnorc_not_pnors {line : String} (h : pyStartswith line "$PNORC" = true) :
    pyStartswith line "$PNORS" = false :=
  startswith_unique h (by decide) (by decide)

/-- Branch analysis of one successful loop iteration: a configuration line
updates only the two configuration fields, a profile-header line only the
profile context, and the only way `recs` grows is the measurement branch
with a defined `cell_size`, appending one row whose depth is the formula. -/
theorem processLine_ok_shape {st : IngestState} {line : String} {st' : IngestState}
    (h : processLine st line = .ok st') :
    (pyStartswith line "$PNORI" = true ∧
      ∃ bk csz, st' = { st with blanking := bk, cell_size := csz }) ∨
    (pyStartswith line "$PNORS" = true ∧
      ∃ pf pm, st' = { st with profile := some pf, press_m := pm }) ∨
    st' = st ∨
    (pyStartswith line "$PNORC" = true ∧ st.cell_size ≠ none ∧
      ∃ (ci : ℚ) (c1 c2 c3 a1 a2 a3 : Option ℚ),
        st' = { st with recs := st.recs ++
          [⟨st.profile, addN (addN st.press_m st.blanking)
              (mulN st.cell_size (subN (some ci) (some (1/2)))),
            c1, c2, c3, a1, a2, a3⟩] }) := by
  unfold processLine at h
  by_cases hI : pyStartswith line "$PNORI" = true
  · rw [if_pos hI] at h
    obtain ⟨x5, _, h⟩ := except_bind_ok h
    obtain ⟨bk, _, h⟩ := except_bind_ok h
    obtain ⟨x6, _, h⟩ := except_bind_ok h
    obtain ⟨csz, _, h⟩ := except_bind_ok h
    refine Or.inl ⟨hI, bk, csz, ?_⟩
    simpa [pure, Except.pure] using h.symm
  · rw [if_neg hI] at h
    by_cases hS : pyStartswith line "$PNORS" = true
    · rw [if_pos hS] at h
      obtain ⟨pf, _, h⟩ := except_bind_ok h
      obtain ⟨x10, _, h⟩ := except_bind_ok h
      obtain ⟨pm, _, h⟩ := except_bind_ok h
      refine Or.inr (Or.inl ⟨hS, pf, pm, ?_⟩)
      simpa [pure, Except.pure] using h.symm
    · rw [if_neg hS] at h
      by_cases hC : pyStartswith line "$PNORC" = true
      · rw [if_pos hC] at h
        obtain ⟨s3, _, h⟩ := except_bind_ok h
        obtain ⟨cell, _, h⟩ := except_bind_ok h
        by_cases hguard : cell = none ∨ st.cell_size = none
        · rw [if_pos hguard] at h
          refine Or.inr (Or.inr (Or.inl ?_))
          simpa [pure, Except.pure] using h.symm
        · rw [if_neg hguard] at h
          push_neg at hguard
          obtain ⟨x15, _, h⟩ := except_bind_ok h
          obtain ⟨c1, _, h⟩ := except_bind_ok h
          obtain ⟨x16, _, h⟩ := except_bind_ok h
          obtain ⟨c2, _, h⟩ := except_bind_ok h
          obtain ⟨x17, _, h⟩ := except_bind_ok h
          obtain ⟨c3, _, h⟩ := except_bind_ok h
          obtain ⟨x11, _, h⟩ := except_bind_ok h
          obtain ⟨a1, _, h⟩ := except_bind_ok h
          obtain ⟨x12, _, h⟩ := except_bind_ok h
          obtain ⟨a2, _, h⟩ := except_bind_ok h
          obtain ⟨x13, _, h⟩ := except_bind_ok h
          obtain ⟨a3, _, h⟩ := except_bind_ok h
          obtain ⟨ci, rfl⟩ := Option.ne_none_iff_exists'.1 hguard.1
          refine Or.inr (Or.inr (Or.inr ⟨hC, hguard.2, ci, c1, c2, c3, a1, a2, a3, ?_⟩))
          simpa [pure, Except.pure] using h.symm
      · rw [if_neg hC] at h
        refine Or.inr (Or.inr (Or.inl ?_))
        simpa [pure, Except.pure] using h.symm

/-- A measurement line processed under a fully defined context appends
exactly one row carrying the current profile and the depth formula at the
cell index parsed from field 3. -/
theorem processLine_pnorc_append {st : IngestState} {line : String}
    (hC : pyStartswith line "$PNORC" = true)
    {s3 : String} (h3 : getField (splitFields line) 3 = .ok s3)
    {ci : ℚ} (h4 : i2 s3 = .ok (some ci))
    (hcs : st.cell_size ≠ none)
    {st' : IngestState} (h : processLine st line = .ok st') :
    ∃ r : Row, st'.recs = st.recs ++ [r] ∧ r.profile = st.profile ∧
      r.depth = addN (addN st.press_m st.blanking)
        (mulN st.cell_size (subN (some ci) (some (1/2)))) := by
  have hI := pnorc_not_pnori hC
  have hS := pnorc_not_pnors hC
  unfold processLine at h
  rw [hI, hS, hC] at h
  simp only [Bool.false_eq_true, if_false, if_true] at h
  rw [h3, except_ok_bind, h4, except_ok_bind] at h
  have hguard : ¬(some ci = none ∨ st.cell_size = none) := by
    simp [hcs]
  rw [if_neg hguard] at h
  obtain ⟨x15, _, h⟩ := except_bind_ok h
  obtain ⟨c1, _, h⟩ := except_bind_ok h
  obtain ⟨x16, _, h⟩ := except_bind_ok h
  obtain ⟨c2, _, h⟩ := except_bind_ok h
  obtain ⟨x17, _, h⟩ := except_bind_ok h
  obtain ⟨c3, _, h⟩ := except_bind_ok h
  obtain ⟨x11, _, h⟩ := except_bind_ok h
  obtain ⟨a1, _, h⟩ := except_bind_ok h
  obtain ⟨x12, _, h⟩ := except_bind_ok h
  obtain ⟨a2, _, h⟩ := except_bind_ok h
  obtain ⟨x13, _, h⟩ := except_bind_ok h
  obtain ⟨a3, _, h⟩ := except_bind_ok h
  have h' : st' = { st with recs := st.recs ++
      [⟨st.profile, addN (addN st.press_m st.blanking)
          (mulN st.cell_size (subN (some ci) (some (1/2)))),
        c1, c2, c3, a1, a2, a3⟩] } := by
    simpa [pure, Except.pure] using h.symm
  subst h'
  exact ⟨_, rfl, rfl, rfl⟩

/-- A measurement line reaching the guard while `cell_size` is still unknown
leaves the state exactly as it was (no row, no error). -/
theorem processLine_pnorc_skip {st : IngestState} {line : String}
    (hC : pyStartswith line "$PNORC" = true)
    {s3 : String} (h3 : getField (splitFields line) 3 = .ok s3)
    {c : Option ℚ} (h4 : i2 s3 = .ok c)
    (hcs : st.cell_size = none) :
    processLine st line = .ok st := by
  have hI := pnorc_not_pnori hC
  have hS := pnorc_not_pnors hC
  unfold processLine
  rw [hI, hS, hC]
  simp only [Bool.false_eq_true, if_false, if_true]
  rw [h3, except_ok_bind, h4, except_ok_bind, if_pos (Or.inr hcs)]
  rfl

/-! ### Claim theorems -/

/-- C3: every stored Sample has a defined depth; candidate rows with an
unknown depth — in particular those appended while pressure or blanking is
still unknown even though cell index and cell size are known — are never
stored (`dropna(subset=["depth"])` removes exactly them). -/
theorem table_depth_defined (recs : List Row) :
    (∀ s ∈ buildTable recs, s.depth.isSome = true) ∧
    (buildTable recs).length = recs.countP (fun r => r.depth.isSome) ∧
    (∀ st line st', (st.press_m = none ∨ st.blanking = none) →
      processLine st line = Except.ok st' →
      ∀ r ∈ st'.recs, r ∈ st.recs ∨ r.depth = none) := by
  refine ⟨fun s hs => ?_, ?_, fun st line st' hmiss hok r hr => ?_⟩
  · obtain ⟨r, hr, rfl⟩ := mem_buildTable_iff.1 hs
    exact (mem_keptSorted.1 hr).2
  · rw [buildTable, List.length_map, keptSorted,
      (List.perm_insertionSort _ _).length_eq, List.countP_eq_length_filter]
  · rcases processLine_ok_shape hok with ⟨-, bk, csz, rfl⟩ | ⟨-, pf, pm, rfl⟩ |
      rfl | ⟨-, -, ci, c1, c2, c3, a1, a2, a3, rfl⟩
    · exact Or.inl hr
    · exact Or.inl hr
    · exact Or.inl hr
    · rcases List.mem_append.1 hr with hr | hr
      · exact Or.inl hr
      · refine Or.inr ?_
        rcases List.mem_singleton.1 hr with rfl
        rcases hmiss with hmiss | hmiss <;>
          simp [hmiss, addN]

theorem table_depth_defined_witness :
    exampleSample.depth.isSome = true ∧
    exampleTable.length = exampleRecs.countP (fun r => r.depth.isSome) ∧
    (rowU ∈ stU.recs ∨ rowU.depth = none) :=
  ⟨(table_depth_defined exampleRecs).1 exampleSample (by with_unfolding_all decide),
   (table_depth_defined exampleRecs).2.1,
   (table_depth_defined []).2.2 stU "$ABC" stU (Or.inl rfl)
     (by with_unfolding_all rfl) rowU (by decide)⟩

/-- C4 counterexample: the claim says an unparseable (non-empty) numeric
field is substituted with "unknown" and the line never fails; in the code
`float(x)` / `int(x)` raise `ValueError` for such a field, aborting the
run, as at the configuration line whose blanking field is "abc". -/
theorem unparseable_field_counterexample :
    f2 "abc" = Except.error () ∧ i2 "abc" = Except.error () ∧
    ingest ["$PNORI,4,123456,3,30,abc,1.00*hh"] = Except.error () :=
  ⟨by with_unfolding_all rfl, by with_unfolding_all rfl,
   by with_unfolding_all rfl⟩

/-- C4 (amended): an empty numeric field is substituted with "unknown"
(`np.nan`) and the line proceeds; a parseable field yields its value; a
non-empty unparseable field raises (the line — and the ingest pass — fails). -/
theorem field_error_policy (x : String) :
    (x = "" → f2 x = Except.ok none ∧ i2 x = Except.ok none) ∧
    (∀ v, pyFloat x = some v → f2 x = Except.ok (some v)) ∧
    (∀ v : ℤ, pyInt x = some v → i2 x = Except.ok (some (v : ℚ))) ∧
    (x ≠ "" → pyFloat x = none → f2 x = Except.error ()) ∧
    (x ≠ "" → pyInt x = none → i2 x = Except.error ()) := by
  refine ⟨fun hx => ?_, fun v hv => ?_, fun v hv => ?_,
    fun hx hv => ?_, fun hx hv => ?_⟩
  · subst hx
    exact ⟨rfl, rfl⟩
  · unfold f2
    by_cases hx : x = ""
    · subst hx
      rw [show pyFloat "" = none from rfl] at hv
      cases hv
    · rw [if_neg hx, hv]
  · unfold i2
    by_cases hx : x = ""
    · subst hx
      rw [show pyInt "" = none from rfl] at hv
      cases hv
    · rw [if_neg hx, hv]
  · unfold f2
    rw [if_neg hx, hv]
  · unfold i2
    rw [if_neg hx, hv]

theorem field_error_policy_witness :
    (f2 "" = Except.ok none ∧ i2 "" = Except.ok none) ∧
    f2 "12.30" = Except.ok (some (123/10)) ∧
    i2 "60" = Except.ok (some ((60 : ℤ) : ℚ)) ∧
    f2 "abc" = Except.error () ∧
    i2 "3.5" = Except.error () :=
  ⟨(field_error_policy "").1 rfl,
   (field_error_policy "12.30").2.1 (123/10) (by with_unfolding_all rfl),
   (field_error_policy "60").2.2.1 60 (by with_unfolding_all rfl),
   (field_error_policy "abc").2.2.2.1 (by decide) (by with_unfolding_all rfl),
   (field_error_policy "3.5").2.2.2.2 (by decide) (by with_unfolding_all rfl)⟩

/-- C5: before any configuration line `cell_size` is unknown (it starts
unknown and only configuration lines touch it), and a cell-measurement line
processed in that state leaves the state untouched: no Sample, no error. -/
theorem premature_measurement_dropped :
    initState.cell_size = none ∧
    (∀ st line st', pyStartswith line "$PNORI" = false →
      processLine st line = Except.ok st' → st'.cell_size = st.cell_size) ∧
    (∀ st line s3 c, st.cell_size = none →
      pyStartswith line "$PNORC" = true →
      getField (splitFields line) 3 = Except.ok s3 →
      i2 s3 = Except.ok c →
      processLine st line = Except.ok st) := by
  refine ⟨rfl, fun st line st' hI hok => ?_,
    fun st line s3 c hcs hC h3 h4 => processLine_pnorc_skip hC h3 h4 hcs⟩
  rcases processLine_ok_shape hok with ⟨hI', -⟩ | ⟨-, pf, pm, rfl⟩ |
    rfl | ⟨-, -, ci, c1, c2, c3, a1, a2, a3, rfl⟩
  · rw [hI'] at hI
    cases hI
  · rfl
  · rfl
  · rfl

theorem premature_measurement_dropped_witness :
    processLine initState pnorcExample = Except.ok initState :=
  premature_measurement_dropped.2.2 initState pnorcExample "2" (some 2) rfl
    (by with_unfolding_all rfl) (by with_unfolding_all rfl)
    (by with_unfolding_all rfl)

/-- C6: in the built SampleTable, adjacent rows have non-decreasing
profile id, and among rows with equal profile id non-decreasing depth. -/
theorem table_sorted (recs : List Row) :
    List.Chain' (fun a b : Sample =>
      optStrLE a.profile b.profile = true ∧
      (a.profile = b.profile → optQLE a.depth b.depth = true))
      (buildTable recs) := by
  have hs : List.Pairwise (fun a b => rowLE a b = true) (keptSorted recs) :=
    keptSorted_sorted recs
  have hmap : List.Pairwise (fun a b : Sample =>
      optStrLE a.profile b.profile = true ∧
      (a.profile = b.profile → optQLE a.depth b.depth = true))
      (buildTable recs) := by
    rw [buildTable]
    refine List.Pairwise.map _ (fun a b hab => ?_) hs
    show optStrLE a.profile b.profile = true ∧
      (a.profile = b.profile → optQLE a.depth b.depth = true)
    unfold rowLE at hab
    by_cases hp : a.profile = b.profile
    · rw [if_pos hp] at hab
      exact ⟨hp ▸ optStrLE_refl _, fun _ => hab⟩
    · rw [if_neg hp] at hab
      exact ⟨hab, fun h => absurd h hp⟩
  exact hmap.chain'

theorem table_sorted_witness :
    List.Chain' (fun a b : Sample =>
      optStrLE a.profile b.profile = true ∧
      (a.profile = b.profile → optQLE a.depth b.depth = true))
      (buildTable cexRows) :=
  table_sorted cexRows

/-- C7: for every stored Sample, `corr_mean` / `amp_mean` is the arithmetic
mean of the defined members of its triple, and a triple with no defined
member yields an unknown mean (never zero, never an error). -/
theorem mean_skipna_spec (recs : List Row) (s : Sample)
    (hs : s ∈ buildTable recs) :
    s.corr_mean =
      (if ([s.corr1, s.corr2, s.corr3].filterMap id).isEmpty then none
       else some (([s.corr1, s.corr2, s.corr3].filterMap id).sum /
         (([s.corr1, s.corr2, s.corr3].filterMap id).length : ℚ))) ∧
    s.amp_mean =
      (if ([s.amp1, s.amp2, s.amp3].filterMap id).isEmpty then none
       else some (([s.amp1, s.amp2, s.amp3].filterMap id).sum /
         (([s.amp1, s.amp2, s.amp3].filterMap id).length : ℚ))) ∧
    (s.corr1 = none → s.corr2 = none → s.corr3 = none → s.corr_mean = none) ∧
    (s.amp1 = none → s.amp2 = none → s.amp3 = none → s.amp_mean = none) := by
  obtain ⟨r, hr, rfl⟩ := mem_buildTable_iff.1 hs
  refine ⟨rfl, rfl, fun h1 h2 h3 => ?_, fun h1 h2 h3 => ?_⟩ <;>
    simp only [finishRow] at h1 h2 h3 ⊢ <;>
    simp [meanSkipna, h1, h2, h3]

theorem mean_skipna_spec_witness :
    exampleSample.corr_mean =
      (if ([exampleSample.corr1, exampleSample.corr2,
            exampleSample.corr3].filterMap id).isEmpty then none
       else some (([exampleSample.corr1, exampleSample.corr2,
            exampleSample.corr3].filterMap id).sum /
         (([exampleSample.corr1, exampleSample.corr2,
            exampleSample.corr3].filterMap id).length : ℚ))) ∧
    exampleSample.amp_mean =
      (if ([exampleSample.amp1, exampleSample.amp2,
            exampleSample.amp3].filterMap id).isEmpty then none
       else some (([exampleSample.amp1, exampleSample.amp2,
            exampleSample.amp3].filterMap id).sum /
         (([exampleSample.amp1, exampleSample.amp2,
            exampleSample.amp3].filterMap id).length : ℚ))) ∧
    (exampleSample.corr1 = none → exampleSample.corr2 = none →
      exampleSample.corr3 = none → exampleSample.corr_mean = none) ∧
    (exampleSample.amp1 = none → exampleSample.amp2 = none →
      exampleSample.amp3 = none → exampleSample.amp_mean = none) :=
  mean_skipna_spec exampleRecs exampleSample (by with_unfolding_all decide)

/-- C8: the profile index is a bijection from the distinct profile ids onto
`0..n-1`: `perfis` is sorted and duplicate-free, lists exactly the profiles
of the stored Samples, `indexOf` sends its `i`-th entry to `i`, and every
stored Sample's `idx` column is the index of its profile. -/
theorem profile_index_bijection (recs : List Row) :
    (perfisOf recs).Nodup ∧
    List.Sorted (fun a b => optStrLE a b = true) (perfisOf recs) ∧
    (∀ p, p ∈ perfisOf recs ↔ ∃ s ∈ buildTable recs, s.profile = p) ∧
    (∀ p ∈ perfisOf recs,
      posOf p (perfisOf recs) < (perfisOf recs).length) ∧
    (∀ i (hi : i < (perfisOf recs).length),
      posOf ((perfisOf recs).get ⟨i, hi⟩) (perfisOf recs) = i) ∧
    (∀ s ∈ buildTable recs, s.idx = posOf s.profile (perfisOf recs)) := by
  refine ⟨perfisOf_nodup recs, perfisOf_sorted recs, fun p => ?_,
    fun p hp => posOf_lt_length hp,
    fun i hi => posOf_get (perfisOf_nodup recs) i hi,
    fun s hs => idx_eq_posOf hs⟩
  rw [mem_perfisOf]
  constructor
  · rintro ⟨r, hr, rfl⟩
    exact ⟨finishRow (perfisOf recs) r, List.mem_map_of_mem _ hr, rfl⟩
  · rintro ⟨s, hs, rfl⟩
    obtain ⟨r, hr, rfl⟩ := mem_buildTable_iff.1 hs
    exact ⟨r, hr, rfl⟩

theorem profile_index_bijection_witness :
    (posOf (some "101500") (perfisOf cexRows) < (perfisOf cexRows).length) ∧
    (posOf ((perfisOf cexRows).get ⟨1, by with_unfolding_all decide⟩)
      (perfisOf cexRows) = 1) ∧
    ((buildTable cexRows).headD exampleSample).idx =
      posOf ((buildTable cexRows).headD exampleSample).profile
        (perfisOf cexRows) :=
  ⟨(profile_index_bijection cexRows).2.2.2.1 _ (by with_unfolding_all decide),
   (profile_index_bijection cexRows).2.2.2.2.1 1 (by with_unfolding_all decide),
   (profile_index_bijection cexRows).2.2.2.2.2 _ (by with_unfolding_all decide)⟩

/-- A one-sample table whose sample has an unknown `corr1` but defined
amplitudes, used to exercise the omission behavior. -/
def cexRowsU : List Row :=
  [⟨some "093015", some 10, none, some 61, some 62, some 70, some 71, some 72⟩]

/-- C9: a sample whose value for the chart's metric is unknown contributes
no rendered point to that chart (every rendered point of a series comes
from a sample with a defined metric value), while the same sample still
contributes its point to a chart whose metric is defined for it. -/
theorem unknown_metric_omitted (sub : List Sample) (m m' : Metric)
    (r : Sample) (ti ti' : String) (b b' : Bool) (v d : ℚ)
    (hr : r ∈ sub) (h1 : m.get r = none) (h2 : m'.get r = some v)
    (hd : r.depth = some d) :
    (∀ t ∈ (make_fig sub m ti b).traces,
      t.renderedPoints = (sub.filter (fun x => x.profile = t.name)).filterMap
        (fun x => match m.get x, x.depth with
          | some xv, some yv => some (xv, yv)
          | _, _ => none)) ∧
    (∀ t ∈ (make_fig sub m ti b).traces, ∀ q ∈ t.renderedPoints,
      ∃ x ∈ sub, x.profile = t.name ∧ m.get x = some q.1 ∧
        x.depth = some q.2) ∧
    (∃ t ∈ (make_fig sub m' ti' b').traces, t.name = r.profile ∧
      (v, d) ∈ t.renderedPoints) := by
  have key : ∀ (mm : Metric) (tt : String) (bb : Bool),
      ∀ t ∈ (make_fig sub mm tt bb).traces,
        t.renderedPoints = (sub.filter (fun x => x.profile = t.name)).filterMap
          (fun x => match mm.get x, x.depth with
            | some xv, some yv => some (xv, yv)
            | _, _ => none) := by
    intro mm tt bb t ht
    simp only [make_fig, List.mem_map] at ht
    obtain ⟨p, hp, rfl⟩ := ht
    show Trace.renderedPoints _ = _
    rw [Trace.renderedPoints]
    simp only [List.filterMap_map]
    rfl
  refine ⟨key m ti b, fun t ht q hq => ?_, ?_⟩
  · rw [key m ti b t ht] at hq
    obtain ⟨x, hx, hfx⟩ := List.mem_filterMap.1 hq
    obtain ⟨hxsub, hxp⟩ := List.mem_filter.1 hx
    cases hmx : m.get x <;> cases hdx : x.depth <;> rw [hmx, hdx] at hfx
    · cases hfx
    · cases hfx
    · cases hfx
    · injection hfx with hq'
      subst hq'
      exact ⟨x, hxsub, of_decide_eq_true hxp, by rw [hmx], by rw [hdx]⟩
  · have hpmem : r.profile ∈ groupKeys sub := by
      rw [groupKeys, List.mem_insertionSort, mem_uniqueFirst]
      exact List.mem_map_of_mem _ hr
    refine ⟨⟨r.profile, (sub.filter (fun x => x.profile = r.profile)).map
        (fun x => (m'.get x, x.depth))⟩,
      List.mem_map_of_mem _ hpmem, rfl, ?_⟩
    rw [Trace.renderedPoints]
    refine List.mem_filterMap.2 ⟨(m'.get r, r.depth),
      List.mem_map_of_mem _ (List.mem_filter.2 ⟨hr, by simp⟩), ?_⟩
    rw [h2, hd]

theorem unknown_metric_omitted_witness :
    ((((make_fig (buildTable cexRowsU) .corr1 "t" true).traces).headD
        ⟨none, []⟩).renderedPoints =
      ((buildTable cexRowsU).filter (fun x => x.profile =
        (((make_fig (buildTable cexRowsU) .corr1 "t" true).traces).headD
          ⟨none, []⟩).name)).filterMap
        (fun x => match Metric.get .corr1 x, x.depth with
          | some xv, some yv => some (xv, yv)
          | _, _ => none)) :=
  (unknown_metric_omitted (buildTable cexRowsU) .corr1 .amp1
    ((buildTable cexRowsU).headD exampleSample) "t" "u" true false 70 10
    (by with_unfolding_all decide) (by with_unfolding_all rfl)
    (by with_unfolding_all rfl) (by with_unfolding_all rfl)).1 _
    (by with_unfolding_all decide)

/-- C10 counterexample: with the two-profile table, calling the callback
with the crossed range `[1, 0]` neither rejects (it returns eight charts
normally) nor clamps (its output differs from the output on every valid
subrange `[0,0]`, `[0,1]`, `[1,1]`): it silently yields charts with no
series, because the slice predicate `idx ≥ 1 ∧ idx ≤ 0` is unsatisfiable. -/
theorem crossed_range_counterexample :
    ((update_figs (buildTable cexRows) 1 0).map Fig.traces =
      [[], [], [], [], [], [], [], []]) ∧
    (update_figs (buildTable cexRows) 0 0).map Fig.traces ≠
      (update_figs (buildTable cexRows) 1 0).map Fig.traces ∧
    (update_figs (buildTable cexRows) 0 1).map Fig.traces ≠
      (update_figs (buildTable cexRows) 1 0).map Fig.traces ∧
    (update_figs (buildTable cexRows) 1 1).map Fig.traces ≠
      (update_figs (buildTable cexRows) 1 0).map Fig.traces :=
  ⟨by with_unfolding_all rfl, by with_unfolding_all decide,
   by with_unfolding_all decide, by with_unfolding_all decide⟩

/-- C10 (amended): the callback itself neither rejects nor clamps a crossed
range: for `s > e` the slice is empty and all eight returned charts carry no
series; crossed handles are prevented only at the control surface
(`allowCross=False` on the RangeSlider). -/
theorem crossed_range_empty (tbl : List Sample) (s e : ℕ) (h : e < s) :
    (∀ f ∈ update_figs tbl s e, f.traces = []) ∧ sliderAllowCross = false := by
  have hsub : subSelect tbl s e = [] := by
    rw [subSelect, List.filter_eq_nil_iff]
    intro r hr
    simp only [decide_eq_true_eq, not_and, not_le]
    exact fun h1 => lt_of_lt_of_le h h1
  refine ⟨fun f hf => ?_, rfl⟩
  simp only [update_figs, hsub, List.mem_cons, List.not_mem_nil, or_false] at hf
  rcases hf with rfl | rfl | rfl | rfl | rfl | rfl | rfl | rfl <;> rfl

/-- C1: a cell-measurement line processed with configuration (blanking,
cell size) and profile context (pressure) in force appends exactly one row
whose depth is `pressure + blanking + cell_size * (cell_index - 0.5)`; any
table built from rows containing it keeps that Sample; and the spec's
example input yields exactly the Sample with depth 14.30
(= 143/10), corr_mean 55.0 and amp_mean 75.0. -/
theorem pnorc_depth_spec
    (st : IngestState) (line : String) (b cs p : ℚ) (pr : String)
    (hb : st.blanking = some b) (hcs : st.cell_size = some cs)
    (hp : st.press_m = some p) (hpr : st.profile = some pr)
    (hline : pyStartswith line "$PNORC" = true)
    (s3 : String) (h3 : getField (splitFields line) 3 = Except.ok s3)
    (ci : ℚ) (h4 : i2 s3 = Except.ok (some ci))
    (st' : IngestState) (hok : processLine st line = Except.ok st') :
    (∃ r : Row, st'.recs = st.recs ++ [r] ∧ r.profile = some pr ∧
      r.depth = some (p + b + cs * (ci - 1/2)) ∧
      ∀ recs' : List Row, r ∈ recs' →
        ∃ s ∈ buildTable recs', s.profile = some pr ∧
          s.depth = some (p + b + cs * (ci - 1/2))) ∧
    exampleTable = [exampleSample] := by
  refine ⟨?_, by with_unfolding_all rfl⟩
  obtain ⟨r, hrecs, hprof, hdepth⟩ :=
    processLine_pnorc_append hline h3 h4 (by simp [hcs]) hok
  rw [hb, hcs, hp] at hdepth
  have hdepth' : r.depth = some (p + b + cs * (ci - 1/2)) := by
    rw [hdepth]
    simp [addN, mulN, subN]
  refine ⟨r, hrecs, hprof.trans hpr, hdepth', fun recs' hmem => ?_⟩
  refine ⟨finishRow (perfisOf recs') r, ?_, hprof.trans hpr, hdepth'⟩
  rw [buildTable]
  refine List.mem_map_of_mem _ (mem_keptSorted.2 ⟨hmem, ?_⟩)
  rw [hdepth']
  rfl

/-- The context in force just before the example measurement line. -/
def witSt : IngestState :=
  ⟨[], some (1/2), some 1, some (123/10), some "093015"⟩

/-- The row the example measurement line appends under `witSt`. -/
def witRow : Row :=
  ⟨some "093015", some (143/10), some 60, some 55, some 50,
    some 80, some 75, some 70⟩

/-- The state after processing the example measurement line from `witSt`. -/
def witStA : IngestState := { witSt with recs := [witRow] }

theorem pnorc_depth_spec_witness :
    (∃ r : Row, witStA.recs = witSt.recs ++ [r] ∧ r.profile = some "093015" ∧
      r.depth = some ((123 : ℚ)/10 + 1/2 + 1 * ((2 : ℚ) - 1/2)) ∧
      ∀ recs' : List Row, r ∈ recs' →
        ∃ s ∈ buildTable recs', s.profile = some "093015" ∧
          s.depth = some ((123 : ℚ)/10 + 1/2 + 1 * ((2 : ℚ) - 1/2))) ∧
    exampleTable = [exampleSample] :=
  pnorc_depth_spec witSt pnorcExample (1/2) 1 (123/10) "093015" rfl rfl rfl rfl
    (by with_unfolding_all rfl) "2" (by with_unfolding_all rfl) 2
    (by with_unfolding_all rfl) witStA (by with_unfolding_all rfl)

/-- C2 counterexample: the callback's chart titles are fixed but differ
from the strings the claim quotes: the code writes a U+00A0 no-break space
before each beam number (the claim has an ASCII space) and a U+2011
non-breaking hyphen inside "1‑3" (the claim has an ASCII hyphen). -/
theorem update_figs_titles_counterexample :
    ((update_figs (buildTable []) 0 0).map Fig.title).headD "" =
      titleCorrBeam "1" ∧
    titleCorrBeam "1" ≠ "Correlation – Beam 1" ∧
    ((update_figs (buildTable []) 0 0).map Fig.title).getLastD "" =
      titleAmpMean ∧
    titleAmpMean ≠ "Amplitude MEAN (Beams 1-3)" :=
  ⟨rfl, by with_unfolding_all decide, rfl, by with_unfolding_all decide⟩

/-- C2 (amended): for a valid range the callback returns exactly eight
charts — three correlation beams, the correlation mean, three amplitude
beams, the amplitude mean, with the eight fixed titles of `figTitles`
(which use U+00A0 and U+2011 where the claim quoted ASCII characters) —
and its slice holds exactly the Samples whose profile's index lies in
`[start_index, end_index]` inclusive. -/
theorem update_figs_range_spec (recs : List Row) (s e : ℕ)
    (hse : s ≤ e) (he : e < (perfisOf recs).length) :
    ((update_figs (buildTable recs) s e).map Fig.title = figTitles) ∧
    ((update_figs (buildTable recs) s e).map Fig.vline =
      [some 50, some 50, some 50, some 50, none, none, none, none]) ∧
    (update_figs (buildTable recs) s e).length = 8 ∧
    (∀ r, r ∈ subSelect (buildTable recs) s e ↔
      r ∈ buildTable recs ∧ s ≤ posOf r.profile (perfisOf recs) ∧
        posOf r.profile (perfisOf recs) ≤ e) := by
  refine ⟨rfl, rfl, rfl, fun r => ?_⟩
  rw [subSelect, List.mem_filter]
  constructor
  · rintro ⟨hmem, hcond⟩
    rw [decide_eq_true_eq] at hcond
    rw [← idx_eq_posOf hmem]
    exact ⟨hmem, hcond⟩
  · rintro ⟨hmem, h1, h2⟩
    refine ⟨hmem, ?_⟩
    rw [decide_eq_true_eq, idx_eq_posOf hmem]
    exact ⟨h1, h2⟩

theorem update_figs_range_spec_witness :
    ((update_figs (buildTable cexRows) 0 1).map Fig.title = figTitles) ∧
    (((buildTable cexRows).headD exampleSample) ∈
        subSelect (buildTable cexRows) 0 1 ↔
      ((buildTable cexRows).headD exampleSample) ∈ buildTable cexRows ∧
        0 ≤ posOf ((buildTable cexRows).headD exampleSample).profile
              (perfisOf cexRows) ∧
        posOf ((buildTable cexRows).headD exampleSample).profile
          (perfisOf cexRows) ≤ 1) :=
  ⟨(update_figs_range_spec cexRows 0 1 (by decide)
      (by with_unfolding_all decide)).1,
   (update_figs_range_spec cexRows 0 1 (by decide)
      (by with_unfolding_all decide)).2.2.2 _⟩

theorem crossed_range_empty_witness :
    (make_fig (subSelect (buildTable cexRows) 1 0) .corr1 (titleCorrBeam "1")
      true).traces = [] ∧
    sliderAllowCross = false :=
  ⟨(crossed_range_empty (buildTable cexRows) 1 0 (by decide)).1 _
      (List.mem_cons_self _ _),
   (crossed_range_empty (buildTable cexRows) 1 0 (by decide)).2⟩

end Sig55
